import Mathlib

/-!
Shallow embedding of the location-resolution core of `src/app.py`
(gazetteer index build, location resolver, haversine distance engine,
proximity ranker), together with theorems settling the spec claims.

Conventions of the embedding:
* Python cell values (as they come out of a pandas row) are modelled by
  `PyVal`: a missing value (`NaN`/`None`, for which `pd.notna` is false),
  a string, or a numeric value.  Numeric float values are modelled exactly
  as rationals (every finite IEEE float is a rational); a numeric value
  also carries its `str()` rendering, since the source feeds numbers
  through `str()` before regex scanning.
* A pandas row is an association list of column name to cell, in column
  order (`row.index` order).
* Python dicts are association lists in insertion order; `dictInsert`
  overwrites the value of an existing key in place (exactly the Python
  semantics: iteration order keeps the first-insertion position,
  lookup sees the newest value).
* Fallible Python code (`float(...)` raising `ValueError`, an
  `IndexError` on `parts[0]`) is modelled with `Except` / `Option`.
* The trigonometric arithmetic of the distance engine is modelled over
  the real numbers.
-/

namespace AppPy

/-! ### String helpers modelling the Python `str` methods used by `app.py` -/

/-- Whitespace characters recognised by `str.strip` / `str.split`. -/
def isWs (c : Char) : Bool :=
  c == ' ' || c == '\t' || c == '\n' || c == '\r' || c == '\x0b' || c == '\x0c'

/-- Model of Python `str.strip()`. -/
def pyStrip (s : String) : String :=
  ⟨((s.data.dropWhile isWs).reverse.dropWhile isWs).reverse⟩

/-- Model of Python `str.lower()` (ASCII, which is all the app relies on). -/
def pyLower (s : String) : String := ⟨s.data.map Char.toLower⟩

/-- Model of Python `str.upper()` (ASCII). -/
def pyUpper (s : String) : String := ⟨s.data.map Char.toUpper⟩

/-- Worker for `pyTitle`; the flag records whether the previous character
was alphabetic. -/
def titleGo : Bool → List Char → List Char
  | _, [] => []
  | prevAlpha, c :: cs =>
    if c.isAlpha then
      (if prevAlpha then c.toLower else c.toUpper) :: titleGo true cs
    else c :: titleGo false cs

/-- Model of Python `str.title()` (ASCII): the first letter of every
alphabetic run is upper-cased, the rest lower-cased. -/
def pyTitle (s : String) : String := ⟨titleGo false s.data⟩

/-- Worker for `pySplitWs`: accumulates the current token (reversed). -/
def splitWsGo : List Char → List Char → List String
  | acc, [] => if acc.isEmpty then [] else [⟨acc.reverse⟩]
  | acc, c :: cs =>
    if isWs c then
      if acc.isEmpty then splitWsGo [] cs else ⟨acc.reverse⟩ :: splitWsGo [] cs
    else splitWsGo (c :: acc) cs

/-- Model of Python `str.split()` with no argument: split on runs of
whitespace, dropping empty tokens. -/
def pySplitWs (s : String) : List String := splitWsGo [] s.data

/-- Worker for `splitCommaPipe`. -/
def splitCPGo : List Char → List Char → List String
  | acc, [] => [⟨acc.reverse⟩]
  | acc, c :: cs =>
    if c == ',' || c == '|' then ⟨acc.reverse⟩ :: splitCPGo [] cs
    else splitCPGo (c :: acc) cs

/-- Model of `re.split(r',|\x7c', q)`: split at every comma or pipe,
keeping empty pieces (they are filtered later by the source). -/
def splitCommaPipe (s : String) : List String := splitCPGo [] s.data

/-- Does `n` occur at the head of `l`? -/
def startsWithL : List Char → List Char → Bool
  | [], _ => true
  | _ :: _, [] => false
  | a :: as, b :: bs => a == b && startsWithL as bs

/-- Does `n` occur anywhere inside `l`? -/
def hasSubL (n : List Char) : List Char → Bool
  | [] => startsWithL n []
  | c :: tl => startsWithL n (c :: tl) || hasSubL n tl

/-- Model of the Python substring test `needle in hay`. -/
def containsSub (needle hay : String) : Bool := hasSubL needle.data hay.data

/-- Are the first five characters of `l` all digits?  If so return them. -/
def fiveDigitsAt : List Char → Option (List Char)
  | c1 :: c2 :: c3 :: c4 :: c5 :: _ =>
    if c1.isDigit && c2.isDigit && c3.isDigit && c4.isDigit && c5.isDigit then
      some [c1, c2, c3, c4, c5]
    else none
  | _ => none

/-- Worker for `findFiveDigit`: leftmost scan. -/
def findFiveDigitGo : List Char → Option String
  | [] => none
  | c :: tl =>
    match fiveDigitsAt (c :: tl) with
    | some ds => some ⟨ds⟩
    | none => findFiveDigitGo tl

/-- Model of `re.search(r'\d\x7b5\x7d', s)` followed by `.group()`: the
leftmost run of five consecutive digits, if any. -/
def findFiveDigit (s : String) : Option String := findFiveDigitGo s.data

/-- Digits to the natural number they denote. -/
def digitsToNat (l : List Char) : Nat :=
  l.foldl (fun n c => n * 10 + (c.toNat - '0'.toNat)) 0

/-- Model of Python `float(s)` restricted to plain decimal literals
(optional sign, digits, optional point): `none` models a raised
`ValueError`.  The reference and job data the app consumes carry numbers
only in this plain decimal form. -/
def parseFloat (s : String) : Option ℚ :=
  let l := (pyStrip s).data
  let signAndRest : ℚ × List Char :=
    match l with
    | '-' :: r => (-1, r)
    | '+' :: r => (1, r)
    | r => (1, r)
  let sign := signAndRest.1
  let l2 := signAndRest.2
  let intPart := l2.takeWhile Char.isDigit
  let rest := l2.dropWhile Char.isDigit
  match rest with
  | [] =>
    if intPart.isEmpty then none else some (sign * (digitsToNat intPart : ℚ))
  | '.' :: fr =>
    let fracPart := fr.takeWhile Char.isDigit
    if !(fr.dropWhile Char.isDigit).isEmpty then none
    else if intPart.isEmpty && fracPart.isEmpty then none
    else some (sign * ((digitsToNat intPart : ℚ) +
      (digitsToNat fracPart : ℚ) / 10 ^ fracPart.length))
  | _ => none

/-! ### Cells, rows and dicts -/

/-- A pandas cell value as `app.py` observes it: `na` is `NaN`/`None`
(`pd.notna` false), `str` a string value, `num` a numeric value carrying
its exact rational value and its `str()` rendering. -/
inductive PyVal where
  | na : PyVal
  | str (v : String) : PyVal
  | num (x : ℚ) (rep : String) : PyVal
deriving DecidableEq

/-- Model of `pd.notna`. -/
def PyVal.notna : PyVal → Bool
  | .na => false
  | _ => true

/-- Model of Python `str(v)` on a cell value (`str(nan) = "nan"`). -/
def PyVal.pyStr : PyVal → String
  | .na => "nan"
  | .str v => v
  | .num _ rep => rep

/-- Model of Python `float(v)` on a cell value; `none` models a raised
exception (`float(None)` raises `TypeError`, an unparseable string raises
`ValueError`). -/
def PyVal.pyFloat : PyVal → Option ℚ
  | .na => none
  | .str v => parseFloat v
  | .num x _ => some x

/-- A pandas row: column names paired with cell values, in column order. -/
abbrev Row := List (String × PyVal)

/-- Column labels of a row, in order (`row.index`). -/
def cols (r : Row) : List String := r.map (·.1)

/-- Model of `row.get(k)` / `k in row.index`: first cell under label `k`. -/
def rowGet (r : Row) (k : String) : Option PyVal :=
  (r.find? (fun p => p.1 == k)).map (·.2)

/-- A Python dict in insertion order. -/
abbrev Dict (K V : Type) := List (K × V)

/-- Model of `d[k]` lookup (`none` = `KeyError` / `k not in d`). -/
def dlookup {K V : Type} [BEq K] (m : Dict K V) (k : K) : Option V :=
  (m.find? (fun p => p.1 == k)).map (·.2)

/-- Model of `d[k] = v`: overwrite in place if the key exists (Python
dicts keep the first-insertion position), else append. -/
def dictInsert {K V : Type} [BEq K] (m : Dict K V) (k : K) (v : V) : Dict K V :=
  if m.any (fun p => p.1 == k) then
    m.map (fun p => if p.1 == k then (k, v) else p)
  else m ++ [(k, v)]

/-! ### Gazetteer index build (`app.py` lines 90–115) -/

/-- The payload stored in `zip_to_info`. -/
structure ZipInfo where
  coords : ℚ × ℚ
  city : String
  state : String
deriving DecidableEq

/-- The two module-level dicts built from the cities CSV. -/
structure Index where
  zip : Dict String ZipInfo
  cs : Dict (String × String) (ℚ × ℚ)
deriving DecidableEq

def emptyIndex : Index := ⟨[], []⟩

/-- `str(r.get('city', '')).strip()` (line 101). -/
def rowCity (r : Row) : String :=
  pyStrip (((rowGet r "city").getD (.str "")).pyStr)

/-- `str(r.get('state_id', r.get('state', r.get('state_name', '')))).strip()`
(line 102): the value of the first of the three columns that exists,
whatever it holds. -/
def rowStateId (r : Row) : String :=
  pyStrip (((rowGet r "state_id").getD
    ((rowGet r "state").getD
      ((rowGet r "state_name").getD (.str "")))).pyStr)

/-- The `(city, state)` key registered for a row (line 107). -/
def rowKey (r : Row) : String × String :=
  (pyLower (pyStrip (rowCity r)), pyLower (pyStrip (rowStateId r)))

/-- `pd.notna(lat) and pd.notna(lng)` for a row (line 106); `r.get` with
no guard yields `None` for a missing column, and `pd.notna(None)` is
false. -/
def rowValid (r : Row) : Bool :=
  (((rowGet r "lat").getD .na).notna) && (((rowGet r "lng").getD .na).notna)

/-- The non-empty stripped tokens of the `zips` field (lines 110–112),
empty when the field is `NaN` or the column is absent (default `''`). -/
def zipTokens (r : Row) : List String :=
  let zv := (rowGet r "zips").getD (.str "")
  if zv.notna then
    ((pySplitWs zv.pyStr).map pyStrip).filter (fun zc => !zc.isEmpty)
  else []

/-- The effect of lines 109–113 on `zip_to_info`: when the `zips` field
is not `NaN`, register every non-empty stripped whitespace token of its
`str()` under the row's coordinates and display metadata. -/
def zipUpdate (d : Dict String ZipInfo) (r : Row) (la lo : ℚ) : Dict String ZipInfo :=
  let zv := (rowGet r "zips").getD (.str "")
  if zv.notna then
    (pySplitWs zv.pyStr).foldl
      (fun d' z =>
        let zc := pyStrip z
        if !zc.isEmpty then
          dictInsert d' zc ⟨(la, lo), pyTitle (rowCity r), pyUpper (rowStateId r)⟩
        else d')
      d
  else d

/-- One iteration of the build loop (lines 100–113) acting on the pair of
dicts: a valid row registers its `(city, state)` key (lines 107–108) and
its zip tokens (lines 109–113); `Except.error` models an uncaught
`ValueError` from `float` on a present-but-unparseable coordinate. -/
def buildStep (ix : Index) (r : Row) : Except Unit Index :=
  if rowValid r then
    match ((rowGet r "lat").getD .na).pyFloat, ((rowGet r "lng").getD .na).pyFloat with
    | some la, some lo =>
      .ok ⟨zipUpdate ix.zip r la lo, dictInsert ix.cs (rowKey r) (la, lo)⟩
    | _, _ => .error ()
  else .ok ix

/-- The coordinates a valid, parseable row contributes (derived view used
to state the build lemmas). -/
def rowCoords (r : Row) : ℚ × ℚ :=
  ((((rowGet r "lat").getD .na).pyFloat).getD 0,
    (((rowGet r "lng").getD .na).pyFloat).getD 0)

/-- The `zip_to_info` payload a valid, parseable row contributes (derived
view used to state the build lemmas). -/
def rowZipInfo (r : Row) : ZipInfo :=
  ⟨rowCoords r, pyTitle (rowCity r), pyUpper (rowStateId r)⟩

/-- The whole build (lines 94–115): nothing is built unless the frame has
both a `lat` and a `lng` column; otherwise the loop folds `buildStep`
over the rows, propagating any exception. -/
def buildIndex (dfCols : List String) (rows : List Row) : Except Unit Index :=
  if dfCols.contains "lat" && dfCols.contains "lng" then
    rows.foldlM buildStep emptyIndex
  else .ok emptyIndex

/-! ### Location resolution for a job row (`get_coords_from_job_row`,
lines 118–165) -/

/-- The candidate latitude column names tried by step 1 (line 127). -/
def latColNames : List String := ["latitude", "lat", "job_lat", "latitude_job"]

/-- The candidate longitude column names tried by step 1 (line 128). -/
def lonColNames : List String := ["longitude", "lng", "lon", "job_lng", "longitude_job"]

/-- Step 1 (lines 127–135): the nested loop over recognised column-name
pairs; the first pair present in the row whose two cells both convert
with `float` yields the coordinates, a failed conversion falls through to
the next pair. -/
def explicitLatLng (r : Row) : Option (ℚ × ℚ) :=
  (latColNames.flatMap (fun lc => lonColNames.map (fun oc => (lc, oc)))).findSome?
    (fun p =>
      match rowGet r p.1, rowGet r p.2 with
      | some v, some w =>
        match v.pyFloat, w.pyFloat with
        | some la, some lo => some (la, lo)
        | _, _ => none
      | _, _ => none)

/-- Step 2 (lines 137–144): scan the columns whose name contains `"zip"`;
for each, if the stripped `str()` of the cell is non-empty and contains a
five-digit run, look that run up in `zip_to_info`; a registered code
returns its coordinates, an unregistered one just moves on to the next
zip column. -/
def zipTier (zi : Dict String ZipInfo) (r : Row) : Option (ℚ × ℚ) :=
  ((cols r).filter (fun c => containsSub "zip" c)).findSome?
    (fun zc =>
      let zval := pyStrip (((rowGet r zc).getD .na).pyStr)
      if zval.isEmpty then none
      else
        match findFiveDigit zval with
        | some z => (dlookup zi z).map (·.coords)
        | none => none)

/-- The last column of a row whose name contains `sub` (lines 149–153:
the loop keeps overwriting, so the last hit wins). -/
def lastCol (sub : String) (r : Row) : Option String :=
  (cols r).foldl (fun acc c => if containsSub sub c then some c else acc) none

/-- The shared city/state lookup logic: exact `(city, state)` key, else
the first entry (in dict insertion order) whose city component equals
`city`.  This block appears verbatim both in `get_coords_from_job_row`
(lines 157–163) and in the search branch (lines 245–252); the final
`some m.2` denotes `citystate_to_coords[matches[0]]`, the value stored
under the first matching key. -/
def cityLookup (ci : Dict (String × String) (ℚ × ℚ)) (city state : String) :
    Option (ℚ × ℚ) :=
  match dlookup ci (city, state) with
  | some co => some co
  | none =>
    match ci.filter (fun p => p.1.1 == city) with
    | [] => none
    | m :: _ => some m.2

/-- Step 3 (lines 146–163): locate the (last) city and state columns;
with no city column resolution fails, otherwise the normalised city and
state feed `cityLookup`. -/
def cityTier (ci : Dict (String × String) (ℚ × ℚ)) (r : Row) : Option (ℚ × ℚ) :=
  match lastCol "city" r with
  | none => none
  | some cc =>
    let city := pyLower (pyStrip (((rowGet r cc).getD .na).pyStr))
    let state :=
      match lastCol "state" r with
      | some sc => pyLower (pyStrip (((rowGet r sc).getD .na).pyStr))
      | none => ""
    cityLookup ci city state

/-- `get_coords_from_job_row` (lines 118–165): the three tiers in order,
each `return` modelled by taking the first `some`. -/
def get_coords_from_job_row (zi : Dict String ZipInfo)
    (ci : Dict (String × String) (ℚ × ℚ)) (r : Row) : Option (ℚ × ℚ) :=
  match explicitLatLng r with
  | some c => some c
  | none =>
    match zipTier zi r with
    | some c => some c
    | none => cityTier ci r

/-! ### Origin resolution in the search handler (`find_clicked`,
lines 224–259) -/

/-- The ZIP-mode branch (lines 226–235 with the `not user_coords` stop at
lines 257–259): no five-digit run in the stripped query is an error stop,
an unregistered run leaves `user_coords` unset, which also stops.  Either
way the outcome is NotFound (`none`); no other matching tier runs. -/
def resolveZipQuery (zi : Dict String ZipInfo) (query : String) : Option (ℚ × ℚ) :=
  match findFiveDigit (pyStrip query) with
  | none => none
  | some z => (dlookup zi z).map (·.coords)

/-- Lines 238–244: split the query on commas/pipes, strip the pieces and
drop the empty ones; one piece is a bare city, two or more give city and
state; no pieces at all makes `parts[0]` raise `IndexError` (`none`). -/
def parsedCityState (query : String) : Option (String × String) :=
  let parts := ((splitCommaPipe query).map pyStrip).filter (fun p => !p.isEmpty)
  match parts with
  | [] => none
  | [c] => some (pyLower c, "")
  | c :: s :: _ => some (pyLower c, pyLower s)

/-- The City,State-mode branch (lines 237–255, applied to `query.strip()`
per line 224): parse the query, then run the shared exact-then-first-city
lookup.  The outer `none` models the uncaught `IndexError` on an
all-empty split; `some none` is the NotFound error stop. -/
def resolveCityQuery (ci : Dict (String × String) (ℚ × ℚ)) (query : String) :
    Option (Option (ℚ × ℚ)) :=
  (parsedCityState (pyStrip query)).map (fun p => cityLookup ci p.1 p.2)

/-! ### Distance engine (`haversine_miles`, lines 167–175) -/

/-- Model of Python `math.atan2`. -/
noncomputable def atan2 (y x : ℝ) : ℝ :=
  if 0 < x then Real.arctan (y / x)
  else if x < 0 then
    (if 0 ≤ y then Real.arctan (y / x) + Real.pi else Real.arctan (y / x) - Real.pi)
  else
    (if 0 < y then Real.pi / 2 else if y < 0 then -(Real.pi / 2) else 0)

/-- Model of `math.radians` (line 171–172 map both coordinates through
it). -/
noncomputable def radians (x : ℚ) : ℝ := (x : ℝ) * Real.pi / 180

/-- The intermediate `a` of line 174:
`sin(dlat/2)**2 + cos(lat1)*cos(lat2)*sin(dlon/2)**2`
with `dlat = lat2 - lat1`, `dlon = lon2 - lon1` (line 173). -/
noncomputable def havA (c1 c2 : ℚ × ℚ) : ℝ :=
  Real.sin ((radians c2.1 - radians c1.1) / 2) ^ 2 +
    Real.cos (radians c1.1) * Real.cos (radians c2.1) *
      Real.sin ((radians c2.2 - radians c1.2) / 2) ^ 2

/-- The haversine computation on two present coordinate pairs
(lines 170–175), over the reals: `R * 2 * atan2(sqrt(a), sqrt(1 - a))`
with `R = 3958.8`. -/
noncomputable def hav (c1 c2 : ℚ × ℚ) : ℝ :=
  3958.8 * 2 * atan2 (Real.sqrt (havA c1 c2)) (Real.sqrt (1 - havA c1 c2))

/-- `haversine_miles` (lines 167–175): `float('inf')` when either
argument is absent (line 168), else the haversine value. -/
noncomputable def haversine_miles :
    Option (ℚ × ℚ) → Option (ℚ × ℚ) → WithTop ℝ
  | some a, some b => ((hav a b : ℝ) : WithTop ℝ)
  | _, _ => ⊤

/-! ### Proximity ranking (lines 268–280) -/

/-- Lines 268–278: resolve every job row and keep the rows whose
coordinates resolved (`dropna` on the `resolved_coords` column). -/
def jobsValid (zi : Dict String ZipInfo) (ci : Dict (String × String) (ℚ × ℚ))
    (jobs : List Row) : List (Row × (ℚ × ℚ)) :=
  jobs.filterMap (fun r => (get_coords_from_job_row zi ci r).map (fun c => (r, c)))

/-- Line 279: attach the distance column. -/
noncomputable def withDist (zi : Dict String ZipInfo)
    (ci : Dict (String × String) (ℚ × ℚ)) (origin : ℚ × ℚ) (jobs : List Row) :
    List (Row × (ℚ × ℚ) × WithTop ℝ) :=
  (jobsValid zi ci jobs).map
    (fun p => (p.1, p.2, haversine_miles (some origin) (some p.2)))

/-- Line 280: keep the rows within the (inclusive) radius and sort them
ascending by distance.  (`sort_values`'s contract is an ascending
permutation; the embedding realises it with a merge sort.) -/
noncomputable def nearby (zi : Dict String ZipInfo)
    (ci : Dict (String × String) (ℚ × ℚ)) (origin : ℚ × ℚ) (jobs : List Row)
    (radius : ℚ) : List (Row × (ℚ × ℚ) × WithTop ℝ) :=
  ((withDist zi ci origin jobs).filter
      (fun t => decide (t.2.2 ≤ (((radius : ℝ) : WithTop ℝ))))).mergeSort
    (fun a b => decide (a.2.2 ≤ b.2.2))

/-! ## Shared lemmas about the distance engine -/

theorem sin_half_sub_sq (x y : ℝ) :
    Real.sin ((x - y) / 2) ^ 2 = Real.sin ((y - x) / 2) ^ 2 := by
  rw [show (x - y) / 2 = -((y - x) / 2) by ring, Real.sin_neg, neg_sq]

theorem havA_comm (a b : ℚ × ℚ) : havA a b = havA b a := by
  unfold havA
  rw [mul_comm (Real.cos (radians b.1)) (Real.cos (radians a.1)),
    sin_half_sub_sq (radians b.1) (radians a.1),
    sin_half_sub_sq (radians b.2) (radians a.2)]

theorem hav_comm (a b : ℚ × ℚ) : hav a b = hav b a := by
  unfold hav
  rw [havA_comm a b]

theorem havA_self (a : ℚ × ℚ) : havA a a = 0 := by
  unfold havA
  simp

theorem hav_self (a : ℚ × ℚ) : hav a a = 0 := by
  unfold hav
  rw [havA_self]
  simp [atan2, Real.arctan_zero]

theorem haversine_miles_self (a : ℚ × ℚ) :
    haversine_miles (some a) (some a) = ((0 : ℝ) : WithTop ℝ) := by
  show ((hav a a : ℝ) : WithTop ℝ) = _
  rw [hav_self]

/-! ## Shared lemmas about the dict model -/

section DictLemmas

variable {K V : Type} [BEq K] [LawfulBEq K]

theorem dlookup_map_replace_self (m : Dict K V) (k : K) (v : V)
    (hany : m.any (fun p => p.1 == k) = true) :
    dlookup (m.map (fun p => if p.1 == k then (k, v) else p)) k = some v := by
  induction m with
  | nil => simp at hany
  | cons p t ih =>
    by_cases hpk : p.1 == k
    · simp [dlookup, hpk, List.find?]
    · simp only [List.any_cons, hpk, Bool.false_or] at hany
      simp only [List.map_cons, hpk, if_false, Bool.false_eq_true, ite_false]
      unfold dlookup at ih ⊢
      simp only [List.find?, hpk]
      exact ih hany

theorem dlookup_map_replace_other (m : Dict K V) (k : K) (v : V) (k' : K)
    (hne : ¬k' = k) :
    dlookup (m.map (fun p => if p.1 == k then (k, v) else p)) k' = dlookup m k' := by
  induction m with
  | nil => rfl
  | cons p t ih =>
    by_cases hpk : p.1 == k
    · have hk : (k == k') = false := by
        simp only [beq_eq_false_iff_ne, ne_eq]
        intro h
        exact hne h.symm
      have hpk' : (p.1 == k') = false := by
        have he : p.1 = k := eq_of_beq hpk
        simp only [he, hk]
      unfold dlookup at ih ⊢
      simp only [List.map_cons, hpk, ite_true, List.find?, hk, hpk']
      exact ih
    · unfold dlookup at ih ⊢
      simp only [List.map_cons, hpk, Bool.false_eq_true, ite_false, List.find?]
      by_cases hp' : p.1 == k'
      · simp [hp']
      · simp only [hp', Bool.false_eq_true, ite_false]
        exact ih

theorem dlookup_append_absent_self (m : Dict K V) (k : K) (v : V)
    (hany : m.any (fun p => p.1 == k) = false) :
    dlookup (m ++ [(k, v)]) k = some v := by
  induction m with
  | nil => simp [dlookup, List.find?]
  | cons p t ih =>
    simp only [List.any_cons, Bool.or_eq_false_iff] at hany
    unfold dlookup at ih ⊢
    simp only [List.cons_append, List.find?, hany.1]
    exact ih hany.2

theorem dlookup_append_other (m : Dict K V) (k : K) (v : V) (k' : K)
    (hne : ¬k' = k) :
    dlookup (m ++ [(k, v)]) k' = dlookup m k' := by
  induction m with
  | nil =>
    have hk : (k == k') = false := by
      simp only [beq_eq_false_iff_ne, ne_eq]
      intro h
      exact hne h.symm
    simp [dlookup, List.find?, hk]
  | cons p t ih =>
    unfold dlookup at ih ⊢
    simp only [List.cons_append, List.find?]
    by_cases hp' : p.1 == k'
    · simp [hp']
    · simp only [hp', Bool.false_eq_true, ite_false]
      exact ih

/-- The Python-dict update law: after `d[k] = v`, looking up `k` gives
`v` and looking up any other key is unchanged. -/
theorem dlookup_dictInsert (m : Dict K V) (k : K) (v : V) (k' : K) :
    dlookup (dictInsert m k v) k' = if k' == k then some v else dlookup m k' := by
  unfold dictInsert
  by_cases hany : m.any (fun p => p.1 == k)
  · rw [if_pos hany]
    by_cases hk : (k' == k) = true
    · rw [if_pos hk, eq_of_beq hk]
      exact dlookup_map_replace_self m k v hany
    · rw [if_neg hk]
      exact dlookup_map_replace_other m k v k' (fun h => hk (by simp [h]))
  · rw [if_neg hany]
    by_cases hk : (k' == k) = true
    · rw [if_pos hk, eq_of_beq hk]
      exact dlookup_append_absent_self m k v (Bool.eq_false_iff.mpr hany)
    · rw [if_neg hk]
      exact dlookup_append_other m k v k' (fun h => hk (by simp [h]))

/-- Overwriting in place does not change the key sequence. -/
theorem keys_map_replace (m : Dict K V) (k : K) (v : V) :
    (m.map (fun p => if p.1 == k then (k, v) else p)).map (·.1) = m.map (·.1) := by
  induction m with
  | nil => rfl
  | cons p t ih =>
    by_cases hpk : p.1 == k
    · have he : p.1 = k := eq_of_beq hpk
      simp only [List.map_cons, hpk, ite_true, ih]
      rw [he]
    · simp only [List.map_cons, hpk, Bool.false_eq_true, ite_false, ih]

/-- After `d[k] = v` the key `k` is among the keys. -/
theorem mem_keys_dictInsert_self (m : Dict K V) (k : K) (v : V) :
    k ∈ (dictInsert m k v).map (·.1) := by
  unfold dictInsert
  by_cases hany : m.any (fun p => p.1 == k)
  · rw [if_pos hany, keys_map_replace]
    obtain ⟨p, hp, hpk⟩ := List.any_eq_true.mp hany
    exact List.mem_map.mpr ⟨p, hp, (eq_of_beq hpk).symm ▸ rfl⟩
  · rw [if_neg hany]
    simp

/-- `d[k] = v` keeps every existing key. -/
theorem mem_keys_dictInsert_of_mem (m : Dict K V) (k : K) (v : V) (k'' : K)
    (h : k'' ∈ m.map (·.1)) : k'' ∈ (dictInsert m k v).map (·.1) := by
  unfold dictInsert
  by_cases hany : m.any (fun p => p.1 == k)
  · rw [if_pos hany, keys_map_replace]
    exact h
  · rw [if_neg hany, List.map_append]
    exact List.mem_append_left _ h

end DictLemmas

/-! ## Shared lemmas about the index build -/

theorem buildStep_invalid (ix : Index) (r : Row) (h : rowValid r = false) :
    buildStep ix r = .ok ix := by
  unfold buildStep
  rw [h]
  rfl

theorem buildStep_ok_inv (ix ix' : Index) (r : Row)
    (h : buildStep ix r = .ok ix') :
    (rowValid r = false ∧ ix' = ix) ∨
    (rowValid r = true ∧ ∃ la lo,
      ((rowGet r "lat").getD .na).pyFloat = some la ∧
      ((rowGet r "lng").getD .na).pyFloat = some lo ∧
      ix' = ⟨zipUpdate ix.zip r la lo, dictInsert ix.cs (rowKey r) (la, lo)⟩) := by
  unfold buildStep at h
  by_cases hv : rowValid r
  · rw [if_pos hv] at h
    refine Or.inr ⟨hv, ?_⟩
    cases hla : ((rowGet r "lat").getD .na).pyFloat with
    | none =>
      rw [hla] at h
      exact absurd h (by simp)
    | some la =>
      cases hlo : ((rowGet r "lng").getD .na).pyFloat with
      | none =>
        rw [hla, hlo] at h
        exact absurd h (by simp)
      | some lo =>
        rw [hla, hlo] at h
        simp only [Except.ok.injEq] at h
        exact ⟨la, lo, rfl, rfl, h.symm⟩
  · rw [if_neg hv] at h
    simp only [Except.ok.injEq] at h
    exact Or.inl ⟨Bool.eq_false_iff.mpr hv, h.symm⟩

theorem buildStep_valid_ok (ix : Index) (r : Row) (la lo : ℚ)
    (hv : rowValid r = true)
    (hla : ((rowGet r "lat").getD .na).pyFloat = some la)
    (hlo : ((rowGet r "lng").getD .na).pyFloat = some lo) :
    buildStep ix r =
      .ok ⟨zipUpdate ix.zip r la lo, dictInsert ix.cs (rowKey r) (la, lo)⟩ := by
  unfold buildStep
  rw [if_pos hv, hla, hlo]

theorem foldlM_buildStep_cons_inv (r : Row) (t : List Row) (ix0 ix : Index)
    (h : (r :: t).foldlM buildStep ix0 = .ok ix) :
    ∃ ix1, buildStep ix0 r = .ok ix1 ∧ t.foldlM buildStep ix1 = .ok ix := by
  rw [List.foldlM_cons] at h
  cases hb : buildStep ix0 r with
  | error e =>
    rw [hb] at h
    exact Except.noConfusion h
  | ok ix1 =>
    rw [hb] at h
    exact ⟨ix1, rfl, h⟩

theorem foldlM_buildStep_ok (rows : List Row)
    (h : ∀ r ∈ rows, rowValid r = true →
      ((((rowGet r "lat").getD .na).pyFloat).isSome ∧
        (((rowGet r "lng").getD .na).pyFloat).isSome)) :
    ∀ ix0, ∃ ix, rows.foldlM buildStep ix0 = .ok ix := by
  induction rows with
  | nil =>
    intro ix0
    exact ⟨ix0, rfl⟩
  | cons r t ih =>
    intro ix0
    have hstep : ∃ ix1, buildStep ix0 r = .ok ix1 := by
      by_cases hv : rowValid r
      · obtain ⟨h1, h2⟩ := h r (List.mem_cons_self r t) hv
        obtain ⟨la, hla⟩ := Option.isSome_iff_exists.mp h1
        obtain ⟨lo, hlo⟩ := Option.isSome_iff_exists.mp h2
        exact ⟨_, buildStep_valid_ok ix0 r la lo hv hla hlo⟩
      · exact ⟨ix0, buildStep_invalid ix0 r (Bool.eq_false_iff.mpr hv)⟩
    obtain ⟨ix1, hb⟩ := hstep
    obtain ⟨ix, hfold⟩ := ih (fun r' hr' => h r' (List.mem_cons_of_mem _ hr')) ix1
    refine ⟨ix, ?_⟩
    rw [List.foldlM_cons, hb]
    exact hfold

theorem dlookup_foldl_insertTokens (info : ZipInfo) (ts : List String) :
    ∀ (d : Dict String ZipInfo) (tok : String),
    dlookup (ts.foldl
      (fun d' z =>
        let zc := pyStrip z
        if !zc.isEmpty then dictInsert d' zc info else d') d) tok =
      if tok ∈ (ts.map pyStrip).filter (fun zc => !zc.isEmpty) then some info
      else dlookup d tok := by
  induction ts with
  | nil =>
    intro d tok
    simp
  | cons z t ih =>
    intro d tok
    by_cases hz : (pyStrip z).isEmpty
    · simp only [List.foldl_cons, List.map_cons, List.filter_cons, hz,
        Bool.not_true, ite_false, Bool.false_eq_true]
      exact ih d tok
    · have hz' : (!(pyStrip z).isEmpty) = true := by
        simp [Bool.eq_false_iff.mpr hz]
      simp only [List.foldl_cons, List.map_cons, List.filter_cons, hz', ite_true]
      rw [ih]
      by_cases hmem : tok ∈ (t.map pyStrip).filter (fun zc => !zc.isEmpty)
      · rw [if_pos hmem, if_pos (List.mem_cons_of_mem _ hmem)]
      · rw [if_neg hmem]
        rw [dlookup_dictInsert]
        by_cases htz : tok = pyStrip z
        · rw [if_pos (by simp [htz]), if_pos (by simp [htz])]
        · rw [if_neg (by simp [htz]), if_neg (by
            intro hc
            rcases List.mem_cons.mp hc with h | h
            · exact htz h
            · exact hmem h)]

theorem dlookup_zipUpdate (d : Dict String ZipInfo) (r : Row) (la lo : ℚ)
    (tok : String) :
    dlookup (zipUpdate d r la lo) tok =
      if tok ∈ zipTokens r then
        some ⟨(la, lo), pyTitle (rowCity r), pyUpper (rowStateId r)⟩
      else dlookup d tok := by
  unfold zipUpdate zipTokens
  by_cases hz : ((rowGet r "zips").getD (.str "")).notna
  · rw [if_pos hz, if_pos hz]
    exact dlookup_foldl_insertTokens _ _ d tok
  · rw [if_neg hz, if_neg hz]
    simp

/-- Along a successful build, every existing `citystate_to_coords` key is
kept, and every valid row's key is registered. -/
theorem foldlM_buildStep_cs_keys (rows : List Row) :
    ∀ (ix0 ix : Index), rows.foldlM buildStep ix0 = .ok ix →
    (∀ k, k ∈ ix0.cs.map (·.1) → k ∈ ix.cs.map (·.1)) ∧
    (∀ r ∈ rows, rowValid r = true → rowKey r ∈ ix.cs.map (·.1)) := by
  induction rows with
  | nil =>
    intro ix0 ix h
    have hix : ix0 = ix := by
      rw [List.foldlM_nil] at h
      exact Except.ok.inj h
    exact ⟨fun k hk => hix ▸ hk, fun r hr => absurd hr (List.not_mem_nil r)⟩
  | cons r t ih =>
    intro ix0 ix h
    obtain ⟨ix1, hb, hfold⟩ := foldlM_buildStep_cons_inv r t ix0 ix h
    obtain ⟨hkeep, hreg⟩ := ih ix1 ix hfold
    have hkeep1 : ∀ k, k ∈ ix0.cs.map (·.1) → k ∈ ix1.cs.map (·.1) := by
      intro k hk
      rcases buildStep_ok_inv ix0 ix1 r hb with ⟨-, he⟩ | ⟨-, la, lo, -, -, he⟩
      · rw [he]
        exact hk
      · rw [he]
        exact mem_keys_dictInsert_of_mem _ _ _ _ hk
    refine ⟨fun k hk => hkeep k (hkeep1 k hk), ?_⟩
    intro r' hr' hv'
    rcases List.mem_cons.mp hr' with he | hm
    · subst he
      rcases buildStep_ok_inv ix0 ix1 r' hb with ⟨hf, -⟩ | ⟨-, la, lo, -, -, he⟩
      · rw [hv'] at hf
        exact Bool.noConfusion hf
      · refine hkeep _ ?_
        rw [he]
        exact mem_keys_dictInsert_self _ _ _
    · exact hreg r' hm hv'

/-- What one build step does to a `zip_to_info` lookup: a valid row binds
exactly its non-empty whitespace tokens, anything else is unchanged. -/
theorem buildStep_zip_lookup (ix ix' : Index) (r : Row)
    (h : buildStep ix r = .ok ix') (tok : String) :
    dlookup ix'.zip tok =
      if rowValid r = true ∧ tok ∈ zipTokens r then some (rowZipInfo r)
      else dlookup ix.zip tok := by
  rcases buildStep_ok_inv ix ix' r h with ⟨hf, he⟩ | ⟨hv, la, lo, hla, hlo, he⟩
  · rw [he, if_neg ?_]
    rintro ⟨h1, -⟩
    rw [hf] at h1
    exact Bool.noConfusion h1
  · rw [he]
    show dlookup (zipUpdate ix.zip r la lo) tok = _
    rw [dlookup_zipUpdate]
    by_cases hmem : tok ∈ zipTokens r
    · rw [if_pos hmem, if_pos ⟨hv, hmem⟩]
      unfold rowZipInfo rowCoords
      rw [hla, hlo]
      rfl
    · rw [if_neg hmem, if_neg (fun hc => hmem hc.2)]

/-! ## Shared lemmas about the ranker -/

theorem mem_nearby_iff (zi : Dict String ZipInfo)
    (ci : Dict (String × String) (ℚ × ℚ)) (o : ℚ × ℚ) (jobs : List Row)
    (radius : ℚ) (x : Row × (ℚ × ℚ) × WithTop ℝ) :
    x ∈ nearby zi ci o jobs radius ↔
      x ∈ withDist zi ci o jobs ∧ x.2.2 ≤ (((radius : ℝ) : WithTop ℝ)) := by
  unfold nearby
  rw [(List.mergeSort_perm _ _).mem_iff, List.mem_filter]
  simp

/-! ## Claim theorems -/

/-- C7: for all coordinate pairs `a` and `b`, `haversine_miles`
(the distance engine applied to present coordinates) is symmetric, and
the distance from any coordinate pair to itself is `0`. -/
theorem claim7_distance_symm_self_zero :
    (∀ a b : ℚ × ℚ,
      haversine_miles (some a) (some b) = haversine_miles (some b) (some a)) ∧
    (∀ a : ℚ × ℚ, haversine_miles (some a) (some a) = ((0 : ℝ) : WithTop ℝ)) := by
  constructor
  · intro a b
    show ((hav a b : ℝ) : WithTop ℝ) = ((hav b a : ℝ) : WithTop ℝ)
    rw [hav_comm]
  · exact haversine_miles_self

/-- C8: for a fixed origin and candidate list, enlarging the radius can
only enlarge the result set of `nearby` (line 280), and the radius
boundary is inclusive: a resolved candidate whose distance equals the
radius exactly is a member of the result. -/
theorem claim8_radius_monotone_and_inclusive :
    ∀ (zi : Dict String ZipInfo) (ci : Dict (String × String) (ℚ × ℚ))
      (o : ℚ × ℚ) (jobs : List Row) (r1 r2 : ℚ), r1 < r2 →
      (∀ x, x ∈ nearby zi ci o jobs r1 → x ∈ nearby zi ci o jobs r2) ∧
      (∀ row c, (row, c) ∈ jobsValid zi ci jobs →
        haversine_miles (some o) (some c) = ((r1 : ℝ) : WithTop ℝ) →
        (row, c, haversine_miles (some o) (some c)) ∈ nearby zi ci o jobs r1) := by
  intro zi ci o jobs r1 r2 h12
  constructor
  · intro x hx
    rw [mem_nearby_iff] at hx ⊢
    refine ⟨hx.1, le_trans hx.2 ?_⟩
    have h : ((r1 : ℝ)) ≤ ((r2 : ℝ)) := by exact_mod_cast le_of_lt h12
    exact_mod_cast h
  · intro row c hmem hdist
    rw [mem_nearby_iff]
    refine ⟨?_, ?_⟩
    · unfold withDist
      exact List.mem_map_of_mem _ hmem
    · rw [hdist]

/-- Witness for C8 at a concrete input: one job row carrying explicit
coordinates `(0, 0)`, origin `(0, 0)`, radii `0 < 1`; the candidate sits
at distance exactly `0`, is admitted at radius `0` (inclusive boundary)
and hence also at radius `1` (monotonicity). -/
theorem claim8_radius_monotone_and_inclusive_witness :
    (0 : ℚ) < 1 ∧
    ([("lat", PyVal.num 0 "0.0"), ("lng", PyVal.num 0 "0.0")],
      ((0 : ℚ), (0 : ℚ)),
      haversine_miles (some ((0 : ℚ), (0 : ℚ))) (some ((0 : ℚ), (0 : ℚ)))) ∈
      nearby [] [] ((0 : ℚ), (0 : ℚ))
        [[("lat", PyVal.num 0 "0.0"), ("lng", PyVal.num 0 "0.0")]] 1 := by
  have hmem : ([("lat", PyVal.num 0 "0.0"), ("lng", PyVal.num 0 "0.0")],
      ((0 : ℚ), (0 : ℚ))) ∈
      jobsValid [] [] [[("lat", PyVal.num 0 "0.0"), ("lng", PyVal.num 0 "0.0")]] := by
    decide
  have hdist : haversine_miles (some ((0 : ℚ), (0 : ℚ))) (some ((0 : ℚ), (0 : ℚ))) =
      (((0 : ℚ) : ℝ) : WithTop ℝ) := by
    rw [haversine_miles_self]
    norm_num
  have h := claim8_radius_monotone_and_inclusive [] []
    ((0 : ℚ), (0 : ℚ)) [[("lat", PyVal.num 0 "0.0"), ("lng", PyVal.num 0 "0.0")]]
    0 1 (by norm_num)
  exact ⟨by norm_num, h.1 _ (h.2 _ _ hmem hdist)⟩

/-- C9: a job row that resolves to no coordinates is silently dropped
from `nearby` — removing it from the candidate list changes nothing, and
it never appears in the output — while `haversine_miles` returns the
infinite sentinel whenever either argument is absent, a value that no
finite radius bound admits. -/
theorem claim9_unresolved_dropped_and_infinite_sentinel :
    (∀ (zi : Dict String ZipInfo) (ci : Dict (String × String) (ℚ × ℚ))
      (o : ℚ × ℚ) (radius : ℚ) (l1 l2 : List Row) (bad : Row),
      get_coords_from_job_row zi ci bad = none →
      nearby zi ci o (l1 ++ bad :: l2) radius = nearby zi ci o (l1 ++ l2) radius ∧
      ∀ c d, (bad, c, d) ∉ nearby zi ci o (l1 ++ bad :: l2) radius) ∧
    (∀ (c : Option (ℚ × ℚ)) (radius : ℚ),
      haversine_miles none c = ⊤ ∧ haversine_miles c none = ⊤ ∧
      ¬(⊤ ≤ (((radius : ℝ) : WithTop ℝ)))) := by
  constructor
  · intro zi ci o radius l1 l2 bad hbad
    have hjv : jobsValid zi ci (l1 ++ bad :: l2) = jobsValid zi ci (l1 ++ l2) := by
      unfold jobsValid
      simp [List.filterMap_cons, hbad]
    constructor
    · unfold nearby withDist
      rw [hjv]
    · intro c d h
      rw [mem_nearby_iff] at h
      obtain ⟨hmem, -⟩ := h
      unfold withDist at hmem
      obtain ⟨p, hp, hpe⟩ := List.mem_map.mp hmem
      obtain ⟨r, -, hre⟩ := List.mem_filterMap.mp (by rw [hjv] at hp; exact hp)
      obtain ⟨cr, hcr, hcre⟩ := Option.map_eq_some'.mp hre
      have hp1 : p.1 = bad := by
        have h := congrArg Prod.fst hpe
        simpa using h
      have hrbad : r = bad := by
        have h := congrArg Prod.fst hcre
        simpa [hp1] using h
      rw [hrbad, hbad] at hcr
      exact Option.noConfusion hcr
  · intro c radius
    refine ⟨?_, ?_, ?_⟩
    · cases c <;> rfl
    · cases c <;> rfl
    · intro h
      exact WithTop.coe_ne_top (top_le_iff.mp h)

/-- Witness for C9 at a concrete input: a job row whose only location
hint is the unmatchable city `"Unknowntown"` resolves to nothing, and
dropping it from the candidate list leaves `nearby` unchanged. -/
theorem claim9_unresolved_dropped_and_infinite_sentinel_witness :
    get_coords_from_job_row [] [] [("client_city", PyVal.str "Unknowntown")] = none ∧
    nearby [] [] ((0 : ℚ), (0 : ℚ))
        [[("client_city", PyVal.str "Unknowntown")]] 40 =
      nearby [] [] ((0 : ℚ), (0 : ℚ)) [] 40 := by
  have hbad : get_coords_from_job_row [] []
      [("client_city", PyVal.str "Unknowntown")] = none := by decide
  have h := (claim9_unresolved_dropped_and_infinite_sentinel.1 [] []
    ((0 : ℚ), (0 : ℚ)) 40 [] [] _ hbad).1
  exact ⟨hbad, h⟩

/-- C10: when the explicit latitude/longitude tier of
`get_coords_from_job_row` (lines 127–135) produces a value, resolution
returns exactly that value, and the result is independent of both the
postal-code index and the city/state index — they are never consulted;
when that tier produces nothing, resolution is exactly the zip tier
followed by the city/state tier. -/
theorem claim10_explicit_coords_bypass_index :
    (∀ (zi zi2 : Dict String ZipInfo)
      (ci ci2 : Dict (String × String) (ℚ × ℚ)) (r : Row) (la lo : ℚ),
      explicitLatLng r = some (la, lo) →
      get_coords_from_job_row zi ci r = some (la, lo) ∧
      get_coords_from_job_row zi ci r = get_coords_from_job_row zi2 ci2 r) ∧
    (∀ (zi : Dict String ZipInfo) (ci : Dict (String × String) (ℚ × ℚ)) (r : Row),
      explicitLatLng r = none →
      get_coords_from_job_row zi ci r = (zipTier zi r).or (cityTier ci r)) := by
  constructor
  · intro zi zi2 ci ci2 r la lo h
    unfold get_coords_from_job_row
    rw [h]
    exact ⟨rfl, rfl⟩
  · intro zi ci r h
    unfold get_coords_from_job_row
    rw [h]
    cases zipTier zi r <;> rfl

/-- Witness for C10 at a concrete input: a job row with parseable `lat`
and `lng` columns resolves to exactly those values, whether the indices
are empty or populated. -/
theorem claim10_explicit_coords_bypass_index_witness :
    explicitLatLng [("lat", PyVal.num 41 "41.0"), ("lng", PyVal.num (-87) "-87.0")] =
      some ((41 : ℚ), (-87 : ℚ)) ∧
    get_coords_from_job_row [] []
      [("lat", PyVal.num 41 "41.0"), ("lng", PyVal.num (-87) "-87.0")] =
      some ((41 : ℚ), (-87 : ℚ)) ∧
    get_coords_from_job_row [] []
      [("lat", PyVal.num 41 "41.0"), ("lng", PyVal.num (-87) "-87.0")] =
      get_coords_from_job_row [("99999", ⟨(1, 1), "A", "B"⟩)]
        [(("springfield", "il"), (2, 2))]
        [("lat", PyVal.num 41 "41.0"), ("lng", PyVal.num (-87) "-87.0")] := by
  have h : explicitLatLng
      [("lat", PyVal.num 41 "41.0"), ("lng", PyVal.num (-87) "-87.0")] =
      some ((41 : ℚ), (-87 : ℚ)) := by decide
  have h2 := claim10_explicit_coords_bypass_index.1
    [] [("99999", ⟨(1, 1), "A", "B"⟩)] [] [(("springfield", "il"), (2, 2))]
    [("lat", PyVal.num 41 "41.0"), ("lng", PyVal.num (-87) "-87.0")]
    41 (-87) h
  exact ⟨h, h2.1, h2.2⟩

/-- Counterexample to C1 as stated: a job row whose text contains the
five-digit postal pattern `99999`, not registered in the (empty) postal
index, does NOT produce NotFound — `get_coords_from_job_row` falls
through to the city/state tier (lines 139–144 simply continue on a miss)
and resolves via the row's city and state columns. -/
theorem claim1_counterexample :
    findFiveDigit (pyStrip "99999") = some "99999" ∧
    dlookup ([] : Dict String ZipInfo) "99999" = none ∧
    get_coords_from_job_row [] [(("springfield", "il"), (40, -90))]
      [("zip_code", PyVal.str "99999"), ("client_city", PyVal.str "Springfield"),
        ("state", PyVal.str "IL")] =
      some ((40 : ℚ), (-90 : ℚ)) := by decide

/-- C1 (amended): only the interactive ZIP-mode search treats an
unregistered five-digit code as a hard NotFound with no fallback
(`resolveZipQuery`, lines 226–235/257); in job-row resolution an
unregistered code (failed zip tier) falls back to city/state matching
(`get_coords_from_job_row`, lines 137–163). -/
theorem claim1_amended_zip_miss_behaviour :
    (∀ (zi : Dict String ZipInfo) (q z : String),
      findFiveDigit (pyStrip q) = some z → dlookup zi z = none →
      resolveZipQuery zi q = none) ∧
    (∀ (zi : Dict String ZipInfo) (ci : Dict (String × String) (ℚ × ℚ)) (r : Row),
      explicitLatLng r = none → zipTier zi r = none →
      get_coords_from_job_row zi ci r = cityTier ci r) := by
  constructor
  · intro zi q z h1 h2
    unfold resolveZipQuery
    rw [h1]
    show (dlookup zi z).map (·.coords) = none
    rw [h2]
    rfl
  · intro zi ci r h1 h2
    unfold get_coords_from_job_row
    rw [h1, h2]

/-- Witness for the amended C1 at concrete inputs: the query `" 99999 "`
against an empty postal index is NotFound in ZIP mode, while a job row
with an unregistered zip but a matching city resolves through the
city/state tier. -/
theorem claim1_amended_zip_miss_behaviour_witness :
    (findFiveDigit (pyStrip " 99999 ") = some "99999" ∧
      dlookup ([] : Dict String ZipInfo) "99999" = none ∧
      resolveZipQuery [] " 99999 " = none) ∧
    (explicitLatLng [("zip", PyVal.str "00000"), ("city", PyVal.str "Gotham")] = none ∧
      zipTier [] [("zip", PyVal.str "00000"), ("city", PyVal.str "Gotham")] = none ∧
      get_coords_from_job_row [] [(("gotham", ""), (5, 6))]
        [("zip", PyVal.str "00000"), ("city", PyVal.str "Gotham")] =
        cityTier [(("gotham", ""), (5, 6))]
          [("zip", PyVal.str "00000"), ("city", PyVal.str "Gotham")]) := by
  constructor
  · have h1 : findFiveDigit (pyStrip " 99999 ") = some "99999" := by decide
    have h2 : dlookup ([] : Dict String ZipInfo) "99999" = none := by decide
    exact ⟨h1, h2, claim1_amended_zip_miss_behaviour.1 [] _ _ h1 h2⟩
  · have h1 : explicitLatLng
        [("zip", PyVal.str "00000"), ("city", PyVal.str "Gotham")] = none := by decide
    have h2 : zipTier []
        [("zip", PyVal.str "00000"), ("city", PyVal.str "Gotham")] = none := by decide
    exact ⟨h1, h2,
      claim1_amended_zip_miss_behaviour.2 [] [(("gotham", ""), (5, 6))] _ h1 h2⟩

/-- Counterexample to C2 as stated: with `("chicago", "il")` registered,
the one-character typo `"Chigaco"` (well above any 0.72–0.80 similarity
cutoff against `"chicago"`) does NOT resolve to Chicago — both the
search branch and the job-row city tier return NotFound, because the
code's only fallback is an exact scan of city components
(`get_close_matches` is imported on line 9 but never called). -/
theorem claim2_counterexample :
    resolveCityQuery [(("chicago", "il"), (41, -87))] "Chigaco" = some none ∧
    cityTier [(("chicago", "il"), (41, -87))]
      [("client_city", PyVal.str "Chigaco")] = none := by decide

/-- C2 (amended): when the exact `(city, state)` lookup misses and no
index key has city component equal to the lower-cased place, the
resolver returns NotFound — there is no approximate-string-matching
tier, so any misspelling that matches no key exactly is NotFound. -/
theorem claim2_amended_no_fuzzy_tier :
    (∀ (ci : Dict (String × String) (ℚ × ℚ)) (city state : String),
      dlookup ci (city, state) = none →
      ci.filter (fun p => p.1.1 == city) = [] →
      cityLookup ci city state = none) ∧
    (∀ (ci : Dict (String × String) (ℚ × ℚ)) (q city state : String),
      parsedCityState (pyStrip q) = some (city, state) →
      cityLookup ci city state = none →
      resolveCityQuery ci q = some none) := by
  constructor
  · intro ci city state h1 h2
    unfold cityLookup
    rw [h1]
    show (match ci.filter (fun p => p.1.1 == city) with
      | [] => none
      | m :: _ => some m.2) = none
    rw [h2]
  · intro ci q city state h1 h2
    unfold resolveCityQuery
    rw [h1]
    show some (cityLookup ci city state) = some none
    rw [h2]

/-- Witness for the amended C2 at a concrete input: the query
`"Chigaco"` misses the exact key and the exact city scan over the index
holding only `("chicago", "il")`, so the resolver reports NotFound. -/
theorem claim2_amended_no_fuzzy_tier_witness :
    parsedCityState (pyStrip "Chigaco") = some ("chigaco", "") ∧
    dlookup [(("chicago", "il"), ((41 : ℚ), (-87 : ℚ)))] ("chigaco", "") = none ∧
    List.filter (fun p => p.1.1 == "chigaco")
      [(("chicago", "il"), ((41 : ℚ), (-87 : ℚ)))] = [] ∧
    resolveCityQuery [(("chicago", "il"), (41, -87))] "Chigaco" = some none := by
  have h1 : parsedCityState (pyStrip "Chigaco") = some ("chigaco", "") := by decide
  have h2 : dlookup [(("chicago", "il"), ((41 : ℚ), (-87 : ℚ)))]
      ("chigaco", "") = none := by decide
  have h3 : List.filter (fun p => p.1.1 == "chigaco")
      [(("chicago", "il"), ((41 : ℚ), (-87 : ℚ)))] = [] := by decide
  have hc := claim2_amended_no_fuzzy_tier.1 _ _ _ h2 h3
  exact ⟨h1, h2, h3, claim2_amended_no_fuzzy_tier.2 _ _ _ _ h1 hc⟩

/-- Counterexample to C4 as stated: a reference row whose `lat` holds the
present-but-unparseable string `"abc"` makes the build raise — the loop
guards only `pd.notna` (line 106) and then calls `float` unprotected
(line 108), so the build does NOT silently skip unparseable
coordinates. -/
theorem claim4_counterexample :
    buildIndex ["city", "state_id", "lat", "lng", "zips"]
      [[("city", PyVal.str "X"), ("state_id", PyVal.str "YY"),
        ("lat", PyVal.str "abc"), ("lng", PyVal.num 0 "0.0"),
        ("zips", PyVal.str "11111")]] = .error () := rfl

/-- C4 (amended): a reference row whose latitude or longitude is MISSING
(`NaN` or absent column) raises nothing and is skipped in its entirety
(the step leaves the index untouched), and a build over rows whose
present coordinates all parse succeeds and returns a usable, possibly
empty, index; a present-but-unparseable coordinate, however, raises and
aborts the build. -/
theorem claim4_amended_missing_skipped_unparseable_raises :
    (∀ (ix : Index) (r : Row), rowValid r = false → buildStep ix r = .ok ix) ∧
    (∀ (dfCols : List String) (rows : List Row),
      (∀ r ∈ rows, rowValid r = true →
        ((((rowGet r "lat").getD .na).pyFloat).isSome ∧
          (((rowGet r "lng").getD .na).pyFloat).isSome)) →
      ∃ ix, buildIndex dfCols rows = .ok ix) := by
  constructor
  · exact buildStep_invalid
  · intro dfCols rows h
    unfold buildIndex
    by_cases hc : (dfCols.contains "lat" && dfCols.contains "lng") = true
    · rw [if_pos hc]
      exact foldlM_buildStep_ok rows h emptyIndex
    · rw [if_neg hc]
      exact ⟨emptyIndex, rfl⟩

/-- Witness for the amended C4 at a concrete input: a row with `NaN`
latitude is skipped without touching the index, and the one-row build
containing it succeeds. -/
theorem claim4_amended_missing_skipped_unparseable_raises_witness :
    rowValid [("lat", PyVal.na), ("lng", PyVal.num 0 "0.0"),
      ("city", PyVal.str "Y")] = false ∧
    buildStep emptyIndex [("lat", PyVal.na), ("lng", PyVal.num 0 "0.0"),
      ("city", PyVal.str "Y")] = .ok emptyIndex ∧
    (buildIndex ["city", "lat", "lng"]
      [[("lat", PyVal.na), ("lng", PyVal.num 0 "0.0"),
        ("city", PyVal.str "Y")]]).isOk = true := by
  have hv : rowValid [("lat", PyVal.na), ("lng", PyVal.num 0 "0.0"),
      ("city", PyVal.str "Y")] = false := by decide
  have h2 := claim4_amended_missing_skipped_unparseable_raises.1
    emptyIndex _ hv
  have h3 := claim4_amended_missing_skipped_unparseable_raises.2
    ["city", "lat", "lng"]
    [[("lat", PyVal.na), ("lng", PyVal.num 0 "0.0"), ("city", PyVal.str "Y")]]
    (by
      intro r hr hva
      simp only [List.mem_singleton] at hr
      subst hr
      rw [hva] at hv
      exact Bool.noConfusion hv)
  obtain ⟨ix, hix⟩ := h3
  refine ⟨hv, h2, ?_⟩
  rw [hix]
  rfl

/-- Counterexample to C5 as stated: a row carrying both the abbreviation
`state_id = "IL"` and the full name `state_name = "Illinois"` registers
ONLY the `("chicago", "il")` key — line 102 picks a single state token
(`state_id`, falling back to `state`, then `state_name`), so the
full-name key `("chicago", "illinois")` is absent and that form does not
resolve. -/
theorem claim5_counterexample :
    (buildIndex ["city", "state_id", "state_name", "lat", "lng", "zips"]
      [[("city", PyVal.str "Chicago"), ("state_id", PyVal.str "IL"),
        ("state_name", PyVal.str "Illinois"),
        ("lat", PyVal.num 41 "41.0"), ("lng", PyVal.num (-87) "-87.0"),
        ("zips", PyVal.str "60601")]]).map
      (fun ix => (dlookup ix.cs ("chicago", "il"),
        dlookup ix.cs ("chicago", "illinois"))) =
      .ok (some ((41 : ℚ), (-87 : ℚ)), none) := rfl

/-- C5 (amended): each valid reference row registers exactly ONE
`byCityState` key, whose state token is the value of `state_id` if that
column exists, else `state`, else `state_name` (`rowKey`, from line 102);
along any successful build every valid row's single key is present, and
a one-row build registers exactly that key and no other. -/
theorem claim5_amended_single_state_key :
    (∀ (dfCols : List String) (rows : List Row) (ix : Index),
      buildIndex dfCols rows = .ok ix →
      (dfCols.contains "lat" && dfCols.contains "lng") = true →
      ∀ r ∈ rows, rowValid r = true → rowKey r ∈ ix.cs.map (·.1)) ∧
    (∀ (dfCols : List String) (r : Row) (ix : Index),
      buildIndex dfCols [r] = .ok ix →
      (dfCols.contains "lat" && dfCols.contains "lng") = true →
      rowValid r = true → ix.cs.map (·.1) = [rowKey r]) := by
  constructor
  · intro dfCols rows ix h hc r hr hv
    unfold buildIndex at h
    rw [if_pos hc] at h
    exact (foldlM_buildStep_cs_keys rows emptyIndex ix h).2 r hr hv
  · intro dfCols r ix h hc hv
    unfold buildIndex at h
    rw [if_pos hc] at h
    obtain ⟨ix1, hb, hfold⟩ := foldlM_buildStep_cons_inv r [] emptyIndex ix h
    have hix : ix1 = ix := Except.ok.inj hfold
    subst hix
    rcases buildStep_ok_inv emptyIndex ix1 r hb with ⟨hf, -⟩ | ⟨-, la, lo, -, -, he⟩
    · rw [hv] at hf
      exact Bool.noConfusion hf
    · rw [he]
      rfl

/-- Witness for the amended C5 at a concrete input: the one-row build of
the Chicago row (which carries both `state_id` and `state_name`)
registers exactly the single key `rowKey` of that row. -/
theorem claim5_amended_single_state_key_witness :
    (rowKey [("city", PyVal.str "Chicago"), ("state_id", PyVal.str "IL"),
        ("state_name", PyVal.str "Illinois"),
        ("lat", PyVal.num 41 "41.0"), ("lng", PyVal.num (-87) "-87.0"),
        ("zips", PyVal.str "60601")] ∈
      ([(("chicago", "il"), ((41 : ℚ), (-87 : ℚ)))] :
        Dict (String × String) (ℚ × ℚ)).map (·.1)) ∧
    ([(("chicago", "il"), ((41 : ℚ), (-87 : ℚ)))] :
        Dict (String × String) (ℚ × ℚ)).map (·.1) =
      [rowKey [("city", PyVal.str "Chicago"), ("state_id", PyVal.str "IL"),
        ("state_name", PyVal.str "Illinois"),
        ("lat", PyVal.num 41 "41.0"), ("lng", PyVal.num (-87) "-87.0"),
        ("zips", PyVal.str "60601")]] := by
  have hb : buildIndex ["city", "state_id", "state_name", "lat", "lng", "zips"]
      [[("city", PyVal.str "Chicago"), ("state_id", PyVal.str "IL"),
        ("state_name", PyVal.str "Illinois"),
        ("lat", PyVal.num 41 "41.0"), ("lng", PyVal.num (-87) "-87.0"),
        ("zips", PyVal.str "60601")]] =
      .ok ⟨[("60601", ⟨((41 : ℚ), (-87 : ℚ)), "Chicago", "IL"⟩)],
        [(("chicago", "il"), ((41 : ℚ), (-87 : ℚ)))]⟩ := rfl
  refine ⟨?_, ?_⟩
  · exact claim5_amended_single_state_key.1 _ _ _ hb (by decide) _
      (List.mem_singleton.mpr rfl) (by decide)
  · exact claim5_amended_single_state_key.2 _ _ _ hb (by decide) (by decide)

/-- Counterexample to C6 as stated: a row whose zips field is the
embedded format `"60601-1234"` does NOT register the 5-digit substring
`"60601"` — the build splits on whitespace only and registers the token
verbatim (lines 110–113), so the key is `"60601-1234"` and `"60601"` is
absent. -/
theorem claim6_counterexample :
    (buildIndex ["city", "state_id", "lat", "lng", "zips"]
      [[("city", PyVal.str "Chicago"), ("state_id", PyVal.str "IL"),
        ("lat", PyVal.num 41 "41.0"), ("lng", PyVal.num (-87) "-87.0"),
        ("zips", PyVal.str "60601-1234")]]).map
      (fun ix => (dlookup ix.zip "60601", dlookup ix.zip "60601-1234")) =
      .ok (none, some ⟨((41 : ℚ), (-87 : ℚ)), "Chicago", "IL"⟩) := rfl

/-- C6 (amended): for every valid reference row the build registers each
NON-EMPTY WHITESPACE-SEPARATED TOKEN of the zips field verbatim as a
`byPostalCode` key (no 5-digit extraction happens at build time — that
happens only on the query side), leaving all other keys untouched; and
when a later row binds a token already bound by an earlier row, the
later binding wins. -/
theorem claim6_amended_verbatim_tokens_last_write_wins :
    (∀ (ix ix' : Index) (r : Row), buildStep ix r = .ok ix' → ∀ tok,
      dlookup ix'.zip tok =
        if rowValid r = true ∧ tok ∈ zipTokens r then some (rowZipInfo r)
        else dlookup ix.zip tok) ∧
    (∀ (dfCols : List String) (rows : List Row) (r : Row) (ix : Index),
      buildIndex dfCols (rows ++ [r]) = .ok ix →
      (dfCols.contains "lat" && dfCols.contains "lng") = true →
      rowValid r = true → ∀ tok ∈ zipTokens r,
      dlookup ix.zip tok = some (rowZipInfo r)) := by
  constructor
  · exact buildStep_zip_lookup
  · intro dfCols rows r ix h hc hv tok htok
    unfold buildIndex at h
    rw [if_pos hc, List.foldlM_append] at h
    cases hf : rows.foldlM buildStep emptyIndex with
    | error e =>
      rw [hf] at h
      exact Except.noConfusion h
    | ok ix0 =>
      rw [hf] at h
      obtain ⟨ix1, hb, hrest⟩ := foldlM_buildStep_cons_inv r [] ix0 ix h
      have hix : ix1 = ix := Except.ok.inj hrest
      subst hix
      rw [buildStep_zip_lookup ix0 ix1 r hb tok, if_pos ⟨hv, htok⟩]

/-- Witness for the amended C6 at a concrete input: two rows both bind
the token `"11111"`; after the build the lookup returns the second row's
payload (last-write-wins), which is exactly `rowZipInfo` of that row. -/
theorem claim6_amended_verbatim_tokens_last_write_wins_witness :
    dlookup
      ([("11111", ⟨((2 : ℚ), (2 : ℚ)), "B", "XB"⟩)] : Dict String ZipInfo)
      "11111" =
      some (rowZipInfo [("city", PyVal.str "B"), ("state_id", PyVal.str "XB"),
        ("lat", PyVal.num 2 "2.0"), ("lng", PyVal.num 2 "2.0"),
        ("zips", PyVal.str "11111")]) := by
  have hb : buildIndex ["city", "state_id", "lat", "lng", "zips"]
      ([[("city", PyVal.str "A"), ("state_id", PyVal.str "XA"),
        ("lat", PyVal.num 1 "1.0"), ("lng", PyVal.num 1 "1.0"),
        ("zips", PyVal.str "11111")]] ++
       [[("city", PyVal.str "B"), ("state_id", PyVal.str "XB"),
        ("lat", PyVal.num 2 "2.0"), ("lng", PyVal.num 2 "2.0"),
        ("zips", PyVal.str "11111")]]) =
      .ok ⟨[("11111", ⟨((2 : ℚ), (2 : ℚ)), "B", "XB"⟩)],
        [(("a", "xa"), ((1 : ℚ), (1 : ℚ))),
          (("b", "xb"), ((2 : ℚ), (2 : ℚ)))]⟩ := rfl
  exact claim6_amended_verbatim_tokens_last_write_wins.2 _ _ _ _ hb
    (by decide) (by decide) _ (by decide)

end AppPy
